import Mathlib

/-!
Shallow embedding of the ERC20 pallet in src/pallets/erc20/lib.rs.

Modelling conventions:

* `T::AccountId` and the `u32` token id are opaque keys; both are modelled
  as `Nat`.
* `T::TokenBalance` is a bounded unsigned integer type
  (`AtLeast32BitUnsigned + CheckedAdd + CheckedSub`); it is modelled as
  `Nat` together with an explicit maximum `MAX` (instantiated as the
  `u128` maximum, the usual Substrate balance width), and the
  `checked_add` / `checked_sub` operations fail exactly when the
  mathematical result would leave `[0, MAX]`.
* The three storage maps declared in `decl_storage!` (`Tokens`,
  `BalanceOf`, `Allowance`) are total functions from their key tuples,
  returning the Rust `Default` value on absent keys (zero balances and
  allowances, an empty token record), exactly as Substrate storage maps
  do.  `insert` is unconditional overwrite.
* A dispatch origin is `Option Nat`: `some a` is an origin signed by
  account `a`, `none` an unsigned origin.  `ensure_signed` fails on
  `none`; that failure is the `Unauthenticated` error of the error
  taxonomy.
* The source file uses string errors in its `ensure!` and `ok_or` calls.
  They are mapped to the named taxonomy one-to-one:
  "token name cannot exceed 64 bytes" to `NameTooLong`,
  "token ticker cannot exceed 32 bytes" to `TickerTooLong`,
  "Not enough balance." to `InsufficientBalance`,
  "Not enough allowance" to `InsufficientAllowance`, and the
  checked-arithmetic failures (`Error::<T>::StorageOverflow` and the two
  "overflow in calculating ..." strings) to `ArithmeticOverflow`.
* Each dispatchable is a function from its arguments and the pre-state to
  an `OpResult`: the post-state, the list of deposited events in order,
  and `none` or the error it returned.  In the source every storage write
  is preceded by all of the checks of that dispatchable, so an error
  branch returns the input state unchanged; the embedding transcribes the
  source order of reads, checks and writes literally.
* The source file does not compile as Rust; where its literal text is
  ill-formed the embedding takes the unique type-correct reading and
  records it in the doc comment of the definition (identifier typos such
  as `Blanceof`/`fromt`/`update_allowance`, and the missing `token_id`
  argument that section 9 of the design notes instructs implementers to
  treat as a mandatory explicit parameter on every operation).
-/

/-- Maximum value of the balance type (`u128::MAX`). -/
def MAX : Nat := 2 ^ 128 - 1

/-- `CheckedAdd::checked_add` on the balance type: `none` iff the sum
exceeds `MAX`. -/
def checked_add (a b : Nat) : Option Nat :=
  if a + b ≤ MAX then some (a + b) else none

/-- `CheckedSub::checked_sub` on the balance type: `none` iff the
subtraction would underflow. -/
def checked_sub (a b : Nat) : Option Nat :=
  if b ≤ a then some (a - b) else none

/-- The `Erc20Token` struct: token metadata record.  `name` and `ticker`
are byte sequences (`Vec<u8>`), modelled as lists of bytes. -/
structure Erc20Token where
  name : List Nat
  ticker : List Nat
  total_supply : Nat
  deriving DecidableEq, Repr

/-- The Rust `Default` value of `Erc20Token`. -/
def Erc20Token.default : Erc20Token := ⟨[], [], 0⟩

/-- Error taxonomy of the module (see the mapping from the source string
errors in the file header). -/
inductive Err where
  | Unauthenticated
  | NameTooLong
  | TickerTooLong
  | InsufficientBalance
  | InsufficientAllowance
  | ArithmeticOverflow
  deriving DecidableEq, Repr

/-- Events deposited by the module (`decl_event!`): `Transfer(token id,
from, to, value)` and `Approval(token id, owner, spender, value)`. -/
inductive Event where
  | Transfer (token_id from_ to_ value : Nat)
  | Approval (token_id owner spender value : Nat)
  deriving DecidableEq, Repr

/-- The three storage maps of `decl_storage!`: token details by token id,
balances by (token id, account), allowances by (token id, owner,
spender).  Absent keys read as the default value. -/
structure Store where
  tokens : Nat → Erc20Token
  balance_of : Nat × Nat → Nat
  allowance : Nat × Nat × Nat → Nat

/-- Unconditional map write (`StorageMap::insert`): overwrite the value
at one key, leave every other key unchanged. -/
def mapInsert {κ α : Type} [DecidableEq κ] (m : κ → α) (k : κ) (v : α) : κ → α :=
  fun k' => if k' = k then v else m k'

/-- The empty store: no token records, all balances and allowances zero. -/
def Store.empty : Store :=
  ⟨fun _ => Erc20Token.default, fun _ => 0, fun _ => 0⟩

/-- Result of one dispatchable call: post-state, deposited events in
order, and the error if the call failed. -/
structure OpResult where
  store : Store
  events : List Event
  err : Option Err

/-- `ensure_signed(origin)`: the verified account id of a signed origin,
or a `BadOrigin` failure (surfaced as `Unauthenticated`). -/
def ensure_signed (origin : Option Nat) : Except Err Nat :=
  match origin with
  | some a => .ok a
  | none => .error .Unauthenticated

/-- The internal helper `Module::_transfer` (lib.rs lines 117-137).
Reads the sender balance, requires it to cover `value`, computes the
updated sender balance with `checked_sub`, reads the receiver balance,
computes the updated receiver balance with `checked_add`, and only then
performs the two `BalanceOf` inserts (sender first, receiver second) and
deposits one `Transfer` event.  Both balance reads precede both writes,
exactly as in the source.  The free variable `token_id` of the source is
the explicit first parameter (design notes section 9). -/
def _transfer (token_id from_ to_ value : Nat) (s : Store) : OpResult :=
  let sender_balance := s.balance_of (token_id, from_)
  if sender_balance ≥ value then
    match checked_sub sender_balance value with
    | none => ⟨s, [], some .ArithmeticOverflow⟩
    | some updated_from_balance =>
      let receiver_balance := s.balance_of (token_id, to_)
      match checked_add receiver_balance value with
      | none => ⟨s, [], some .ArithmeticOverflow⟩
      | some updated_to_balance =>
        let s1 : Store :=
          { s with balance_of := mapInsert s.balance_of (token_id, from_) updated_from_balance }
        let s2 : Store :=
          { s1 with balance_of := mapInsert s1.balance_of (token_id, to_) updated_to_balance }
        ⟨s2, [.Transfer token_id from_ to_ value], none⟩
  else ⟨s, [], some .InsufficientBalance⟩

/-- The dispatchable `init` (lib.rs lines 60-75): `ensure_signed`, then
the name length check (max 64), then the ticker length check (max 32),
in that order with the first failure winning; on success it builds the
`Erc20Token` record, writes it into `Tokens`, and inserts the full
`total_supply` as the sender balance.  No event is deposited.  The
source lines `<Tokens<T>>::set<token)` and
`<Blanceof<T>>::insert(sender, total_supply)` are ill-formed; the unique
type-correct reading against the declared storage maps (with `token_id`
an explicit parameter per design notes section 9) is
`Tokens::insert(token_id, token)` and
`BalanceOf::insert((token_id, sender), total_supply)`. -/
def init (origin : Option Nat) (token_id : Nat) (name ticker : List Nat)
    (total_supply : Nat) (s : Store) : OpResult :=
  match ensure_signed origin with
  | .error e => ⟨s, [], some e⟩
  | .ok sender =>
    if name.length ≤ 64 then
      if ticker.length ≤ 32 then
        let token : Erc20Token := ⟨name, ticker, total_supply⟩
        let s1 : Store := { s with tokens := mapInsert s.tokens token_id token }
        let s2 : Store :=
          { s1 with balance_of := mapInsert s1.balance_of (token_id, sender) total_supply }
        ⟨s2, [], none⟩
      else ⟨s, [], some .TickerTooLong⟩
    else ⟨s, [], some .NameTooLong⟩

/-- The dispatchable `transfer` (lib.rs lines 78-82): `ensure_signed`,
then delegate to `_transfer` with the sender as `from`.  The `token_id`
parameter is explicit per design notes section 9. -/
def transfer (origin : Option Nat) (token_id to_ value : Nat) (s : Store) : OpResult :=
  match ensure_signed origin with
  | .error e => ⟨s, [], some e⟩
  | .ok sender => _transfer token_id sender to_ value s

/-- The dispatchable `transfer_from` (lib.rs lines 84-94), transcribed
literally: the origin is never inspected (`_origin` is unused in the
source and no `ensure_signed` call appears), the allowance that is read,
checked and decremented is the one keyed by `from` and `to` (the source
reads `Self::allowance((from.clone(), to.clone()))`; with `token_id`
threaded per design notes section 9 the key is `(token_id, from, to)` —
the caller does not appear in it), no balance is touched and `_transfer`
is never called, and the event deposited is an `Approval`, not a
`Transfer`.  The source spells the insert key `fromt` (a typo for
`from`) and binds `update_allowance` but inserts `updated_allowance`
(the same computed value); its `Approval` arguments name the undefined
variables `sender` and `spender` and omit the token id, so the argument
values below are a type-correct placeholder — the claims only depend on
the constructor being `Approval` rather than `Transfer`. -/
def transfer_from (_origin : Option Nat) (token_id from_ to_ value : Nat)
    (s : Store) : OpResult :=
  let allowance := s.allowance (token_id, from_, to_)
  if allowance ≥ value then
    match checked_sub allowance value with
    | none => ⟨s, [], some .ArithmeticOverflow⟩
    | some updated_allowance =>
      ⟨{ s with allowance := mapInsert s.allowance (token_id, from_, to_) updated_allowance },
        [.Approval token_id from_ to_ value], none⟩
  else ⟨s, [], some .InsufficientAllowance⟩

/-- The dispatchable `approve` (lib.rs lines 97-107): `ensure_signed`,
read the current allowance for `(token_id, sender, spender)`, compute
the new allowance with `checked_add` (additive, not set-to-absolute),
write it back, deposit an `Approval` event.  The free variable
`token_id` of the source is the explicit parameter (design notes
section 9). -/
def approve (origin : Option Nat) (token_id spender value : Nat) (s : Store) : OpResult :=
  match ensure_signed origin with
  | .error e => ⟨s, [], some e⟩
  | .ok sender =>
    let allowance := s.allowance (token_id, sender, spender)
    match checked_add allowance value with
    | none => ⟨s, [], some .ArithmeticOverflow⟩
    | some updated_allowance =>
      ⟨{ s with allowance := mapInsert s.allowance (token_id, sender, spender) updated_allowance },
        [.Approval token_id sender spender value], none⟩

/-! ### Basic lemmas about the store primitives -/

theorem mapInsert_same {κ α : Type} [DecidableEq κ] (m : κ → α) (k : κ) (v : α) :
    mapInsert m k v k = v := by
  simp [mapInsert]

theorem mapInsert_ne {κ α : Type} [DecidableEq κ] (m : κ → α) (k k' : κ) (v : α)
    (h : k' ≠ k) : mapInsert m k v k' = m k' := by
  simp [mapInsert, h]

theorem checked_sub_eq_some (a b : Nat) (h : b ≤ a) : checked_sub a b = some (a - b) := by
  simp [checked_sub, h]

theorem checked_add_eq_some (a b : Nat) (h : a + b ≤ MAX) : checked_add a b = some (a + b) := by
  simp [checked_add, h]

theorem checked_add_eq_none (a b : Nat) (h : MAX < a + b) : checked_add a b = none := by
  simp [checked_add]
  omega

/-! ### Branch lemmas for the operations -/

/-- `_transfer` on an insufficient sender balance fails with
`InsufficientBalance` and returns the input store. -/
theorem _transfer_insufficient (token_id from_ to_ value : Nat) (s : Store)
    (h : s.balance_of (token_id, from_) < value) :
    _transfer token_id from_ to_ value s = ⟨s, [], some .InsufficientBalance⟩ := by
  have h' : ¬ s.balance_of (token_id, from_) ≥ value := by omega
  simp [_transfer, h']

/-- `_transfer` with a sufficient sender balance but an overflowing
receiver balance fails with `ArithmeticOverflow` and returns the input
store. -/
theorem _transfer_overflow (token_id from_ to_ value : Nat) (s : Store)
    (h1 : value ≤ s.balance_of (token_id, from_))
    (h2 : MAX < s.balance_of (token_id, to_) + value) :
    _transfer token_id from_ to_ value s = ⟨s, [], some .ArithmeticOverflow⟩ := by
  simp [_transfer, ge_iff_le, h1, checked_sub_eq_some _ _ h1, checked_add_eq_none _ _ h2]

/-- `_transfer` with a sufficient sender balance and a non-overflowing
receiver balance succeeds: it overwrites the sender balance with
`sender_balance - value`, then the receiver balance with
`receiver_balance + value` (both computed from the pre-state), and
deposits one `Transfer` event. -/
theorem _transfer_success (token_id from_ to_ value : Nat) (s : Store)
    (h1 : value ≤ s.balance_of (token_id, from_))
    (h2 : s.balance_of (token_id, to_) + value ≤ MAX) :
    _transfer token_id from_ to_ value s =
      ⟨{ s with balance_of :=
            (mapInsert
              (mapInsert s.balance_of (token_id, from_) (s.balance_of (token_id, from_) - value))
              (token_id, to_) (s.balance_of (token_id, to_) + value)) },
        [.Transfer token_id from_ to_ value], none⟩ := by
  simp [_transfer, ge_iff_le, h1, checked_sub_eq_some _ _ h1, checked_add_eq_some _ _ h2]

/-- `approve` by a signed caller without overflow succeeds and adds
`value` onto the stored allowance. -/
theorem approve_success (token_id sender spender value : Nat) (s : Store)
    (h : s.allowance (token_id, sender, spender) + value ≤ MAX) :
    approve (some sender) token_id spender value s =
      ⟨{ s with allowance :=
            (mapInsert s.allowance (token_id, sender, spender)
              (s.allowance (token_id, sender, spender) + value)) },
        [.Approval token_id sender spender value], none⟩ := by
  simp [approve, ensure_signed, checked_add_eq_some _ _ h]

/-- `approve` by a signed caller fails with `ArithmeticOverflow` and
returns the input store when the addition would exceed `MAX`. -/
theorem approve_overflow (token_id sender spender value : Nat) (s : Store)
    (h : MAX < s.allowance (token_id, sender, spender) + value) :
    approve (some sender) token_id spender value s = ⟨s, [], some .ArithmeticOverflow⟩ := by
  simp [approve, ensure_signed, checked_add_eq_none _ _ h]

/-! ### Concrete scenario used by the counterexample/bug theorems:
account 1 creates token 7 (empty name and ticker, total supply 100),
then approves 60 to spender 2. -/

/-- Store after account 1 creates token 7 with `total_supply` 100. -/
def demoStore : Store := (init (some 1) 7 [] [] 100 Store.empty).store

/-- `demoStore` after account 1 approves 60 more to spender 2 on
token 7. -/
def demoApproved : Store := (approve (some 1) 7 2 60 demoStore).store

/-! ### Claim theorems -/

/-- C1: the conservation law fails on the code.  Account 1 creates
token 7 with `total_supply` 100 (so account 1 holds the whole supply
and every other balance under token 7 is zero), then performs an
ordinary `transfer` of 50 from itself to itself.  The call succeeds,
and afterwards the recorded `total_supply` is still 100 while the
balance of account 1 — the only nonzero balance entry under token 7 —
is 150: the sum of balances exceeds the supply, so `transfer` does not
preserve the sum.  (Both balances are read before either write in
`_transfer`, so a self-transfer first writes `balance - value` and then
overwrites the same key with `balance + value`.) -/
theorem c1_conservation_violated :
    (transfer (some 1) 7 1 50 demoStore).err = none ∧
    ((transfer (some 1) 7 1 50 demoStore).store.tokens 7).total_supply = 100 ∧
    (transfer (some 1) 7 1 50 demoStore).store.balance_of (7, 1) = 150 ∧
    (transfer (some 1) 7 1 50 demoStore).store.balance_of (7, 2) = 0 := by
  decide

/-- C2: transfer-on-behalf does not behave as claimed.  In
`demoApproved` account 1 holds 100 of token 7 and the allowance at key
(7, 1, 2) is 60.  `transfer_from` with token 7, `from` 1, `to` 2,
value 60 succeeds and zeroes that allowance, but moves no balance at
all (account 1 still holds 100, account 2 holds 0) and deposits an
`Approval` event instead of a `Transfer` event: the source never calls
`_transfer` from this dispatchable. -/
theorem c2_transfer_from_moves_no_balance :
    (transfer_from (some 2) 7 1 2 60 demoApproved).err = none ∧
    (transfer_from (some 2) 7 1 2 60 demoApproved).store.allowance (7, 1, 2) = 0 ∧
    (transfer_from (some 2) 7 1 2 60 demoApproved).store.balance_of (7, 1) = 100 ∧
    (transfer_from (some 2) 7 1 2 60 demoApproved).store.balance_of (7, 2) = 0 ∧
    (transfer_from (some 2) 7 1 2 60 demoApproved).events = [.Approval 7 1 2 60] := by
  decide

/-- C4: a self-transfer does not leave the balance unchanged.  In
`demoStore` account 1 holds 100 of token 7; a direct transfer of 50
with `from == to == 1` succeeds but leaves account 1 with 150, not 100:
the receiver balance is read before the sender write, so the second
insert overwrites the first with `balance + value`. -/
theorem c4_self_transfer_not_identity :
    (transfer (some 1) 7 1 50 demoStore).err = none ∧
    (transfer (some 1) 7 1 50 demoStore).store.balance_of (7, 1) = 150 := by
  decide

/-- C5: transfer-on-behalf neither authenticates the caller nor keys
the allowance by the caller.  In `demoApproved` the allowance at
(7, 1, 2) is 60.  An unsigned origin (`none`) succeeds — no
`Unauthenticated` failure — and decrements the allowance keyed
(token id, `from`, `to`); the origin is never inspected, so the result
is literally identical to the call with any signed caller (here 99). -/
theorem c5_no_authentication_in_transfer_from :
    (transfer_from none 7 1 2 10 demoApproved).err = none ∧
    (transfer_from none 7 1 2 10 demoApproved).store.allowance (7, 1, 2) = 50 ∧
    transfer_from none 7 1 2 10 demoApproved = transfer_from (some 99) 7 1 2 10 demoApproved := by
  exact ⟨by decide, by decide, rfl⟩

/-- C7 counterexample: the boundary case `value == balance_of(from)`
does not always leave `from` at zero.  In `demoStore` account 1 holds
100 of token 7; a transfer of exactly 100 from account 1 to itself
succeeds, yet afterwards the balance of account 1 is 200, not 0. -/
theorem c7_boundary_counterexample :
    (transfer (some 1) 7 1 100 demoStore).err = none ∧
    (transfer (some 1) 7 1 100 demoStore).store.balance_of (7, 1) = 200 := by
  decide

/-! ### Failure atomicity lemmas -/

/-- On any error, `init` returns the input store. -/
theorem init_err_store (origin : Option Nat) (token_id : Nat) (name ticker : List Nat)
    (total_supply : Nat) (s : Store)
    (h : (init origin token_id name ticker total_supply s).err.isSome) :
    (init origin token_id name ticker total_supply s).store = s := by
  cases origin with
  | none => rfl
  | some sender =>
    by_cases h1 : name.length ≤ 64
    · by_cases h2 : ticker.length ≤ 32
      · simp [init, ensure_signed, h1, h2] at h
      · simp [init, ensure_signed, h1, h2]
    · simp [init, ensure_signed, h1]

/-- On any error, `_transfer` returns the input store. -/
theorem _transfer_err_store (token_id from_ to_ value : Nat) (s : Store)
    (h : (_transfer token_id from_ to_ value s).err.isSome) :
    (_transfer token_id from_ to_ value s).store = s := by
  by_cases h1 : value ≤ s.balance_of (token_id, from_)
  · by_cases h2 : s.balance_of (token_id, to_) + value ≤ MAX
    · rw [_transfer_success token_id from_ to_ value s h1 h2] at h
      simp at h
    · rw [_transfer_overflow token_id from_ to_ value s h1 (by omega)]
  · rw [_transfer_insufficient token_id from_ to_ value s (by omega)]

/-- On any error, `transfer` returns the input store. -/
theorem transfer_err_store (origin : Option Nat) (token_id to_ value : Nat) (s : Store)
    (h : (transfer origin token_id to_ value s).err.isSome) :
    (transfer origin token_id to_ value s).store = s := by
  cases origin with
  | none => rfl
  | some sender =>
    have hs : transfer (some sender) token_id to_ value s
        = _transfer token_id sender to_ value s := rfl
    rw [hs] at h ⊢
    exact _transfer_err_store token_id sender to_ value s h

/-- On any error, `transfer_from` returns the input store. -/
theorem transfer_from_err_store (origin : Option Nat) (token_id from_ to_ value : Nat)
    (s : Store) (h : (transfer_from origin token_id from_ to_ value s).err.isSome) :
    (transfer_from origin token_id from_ to_ value s).store = s := by
  by_cases h1 : value ≤ s.allowance (token_id, from_, to_)
  · simp [transfer_from, ge_iff_le, h1, checked_sub_eq_some _ _ h1] at h
  · simp [transfer_from, ge_iff_le, h1]

/-- On any error, `approve` returns the input store. -/
theorem approve_err_store (origin : Option Nat) (token_id spender value : Nat) (s : Store)
    (h : (approve origin token_id spender value s).err.isSome) :
    (approve origin token_id spender value s).store = s := by
  cases origin with
  | none => rfl
  | some sender =>
    by_cases h1 : s.allowance (token_id, sender, spender) + value ≤ MAX
    · rw [approve_success token_id sender spender value s h1] at h
      simp at h
    · rw [approve_overflow token_id sender spender value s (by omega)]

/-- C3: no partial write survives a failure.  For each of the four
dispatchables (`init`, `transfer`, `approve`, `transfer_from`), on every
input on which the operation returns an error, the entire store — all
token records, all balance entries, all allowance entries — equals the
store before the call.  (In the source, every check of an operation
precedes every storage write of that operation.) -/
theorem c3_failure_atomicity :
    (∀ (origin : Option Nat) (token_id : Nat) (name ticker : List Nat)
        (total_supply : Nat) (s : Store),
        (init origin token_id name ticker total_supply s).err.isSome →
          (init origin token_id name ticker total_supply s).store = s) ∧
    (∀ (origin : Option Nat) (token_id to_ value : Nat) (s : Store),
        (transfer origin token_id to_ value s).err.isSome →
          (transfer origin token_id to_ value s).store = s) ∧
    (∀ (origin : Option Nat) (token_id spender value : Nat) (s : Store),
        (approve origin token_id spender value s).err.isSome →
          (approve origin token_id spender value s).store = s) ∧
    (∀ (origin : Option Nat) (token_id from_ to_ value : Nat) (s : Store),
        (transfer_from origin token_id from_ to_ value s).err.isSome →
          (transfer_from origin token_id from_ to_ value s).store = s) :=
  ⟨init_err_store, transfer_err_store, approve_err_store, transfer_from_err_store⟩

/-- Witness for C3 at concrete failing inputs: an unsigned `init`, an
insufficient-balance `transfer`, an overflowing `approve` and an
insufficient-allowance `transfer_from` all error and all return the
input store (`demoStore`) unchanged. -/
theorem c3_failure_atomicity_witness :
    (init none 7 [] [] 5 demoStore).store = demoStore ∧
    (transfer (some 1) 7 2 101 demoStore).store = demoStore ∧
    (approve (some 1) 7 2 MAX demoApproved).store = demoApproved ∧
    (transfer_from (some 2) 7 1 2 1 demoStore).store = demoStore :=
  ⟨c3_failure_atomicity.1 none 7 [] [] 5 demoStore (by decide),
   c3_failure_atomicity.2.1 (some 1) 7 2 101 demoStore (by decide),
   c3_failure_atomicity.2.2.1 (some 1) 7 2 MAX demoApproved (by decide),
   c3_failure_atomicity.2.2.2 (some 2) 7 1 2 1 demoStore (by decide)⟩

/-- C6: `init` checks its preconditions in order with the first failure
winning — unsigned origin gives `Unauthenticated` regardless of the
metadata, then a name longer than 64 bytes gives `NameTooLong`, then a
ticker longer than 32 bytes gives `TickerTooLong` — and on success it
writes the token record for the given id and overwrites the caller
balance at (token id, caller) with exactly `total_supply` (regardless
of any prior balance at that key), changing no other token record, no
other balance entry and no allowance entry. -/
theorem c6_init_check_order_and_effects :
    (∀ (token_id : Nat) (name ticker : List Nat) (total_supply : Nat) (s : Store),
        init none token_id name ticker total_supply s
          = ⟨s, [], some .Unauthenticated⟩) ∧
    (∀ (sender token_id : Nat) (name ticker : List Nat) (total_supply : Nat) (s : Store),
        64 < name.length →
          init (some sender) token_id name ticker total_supply s
            = ⟨s, [], some .NameTooLong⟩) ∧
    (∀ (sender token_id : Nat) (name ticker : List Nat) (total_supply : Nat) (s : Store),
        name.length ≤ 64 → 32 < ticker.length →
          init (some sender) token_id name ticker total_supply s
            = ⟨s, [], some .TickerTooLong⟩) ∧
    (∀ (sender token_id : Nat) (name ticker : List Nat) (total_supply : Nat) (s : Store),
        name.length ≤ 64 → ticker.length ≤ 32 →
          (init (some sender) token_id name ticker total_supply s).err = none ∧
          (init (some sender) token_id name ticker total_supply s).store.tokens token_id
            = ⟨name, ticker, total_supply⟩ ∧
          (init (some sender) token_id name ticker total_supply s).store.balance_of
              (token_id, sender) = total_supply ∧
          (∀ t, t ≠ token_id →
            (init (some sender) token_id name ticker total_supply s).store.tokens t
              = s.tokens t) ∧
          (∀ k, k ≠ (token_id, sender) →
            (init (some sender) token_id name ticker total_supply s).store.balance_of k
              = s.balance_of k) ∧
          (init (some sender) token_id name ticker total_supply s).store.allowance
            = s.allowance) := by
  refine ⟨fun _ _ _ _ _ => rfl, ?_, ?_, ?_⟩
  · intro sender token_id name ticker total_supply s h
    have h1 : ¬ name.length ≤ 64 := by omega
    simp [init, ensure_signed, h1]
  · intro sender token_id name ticker total_supply s h1 h
    have h2 : ¬ ticker.length ≤ 32 := by omega
    simp [init, ensure_signed, h1, h2]
  · intro sender token_id name ticker total_supply s h1 h2
    have hs : init (some sender) token_id name ticker total_supply s
        = ⟨{ s with
              tokens := mapInsert s.tokens token_id ⟨name, ticker, total_supply⟩,
              balance_of := (mapInsert s.balance_of (token_id, sender) total_supply) },
            [], none⟩ := by
      simp [init, ensure_signed, h1, h2]
    rw [hs]
    refine ⟨rfl, mapInsert_same _ _ _, mapInsert_same _ _ _, ?_, ?_, rfl⟩
    · intro t ht
      exact mapInsert_ne _ _ _ _ ht
    · intro k hk
      exact mapInsert_ne _ _ _ _ hk

/-- Witness for C6: each branch of the theorem at a concrete input —
an unsigned call errors `Unauthenticated` even with an over-long name,
a 65-byte name errors `NameTooLong`, a 33-byte ticker errors
`TickerTooLong`, and a valid call by account 3 records the token,
sets the balance at (1, 3) to 5 while leaving the balance at (1, 4)
and the allowance table untouched. -/
theorem c6_init_witness :
    init none 1 (List.replicate 65 0) [] 5 Store.empty
      = ⟨Store.empty, [], some .Unauthenticated⟩ ∧
    init (some 3) 1 (List.replicate 65 0) [] 5 Store.empty
      = ⟨Store.empty, [], some .NameTooLong⟩ ∧
    init (some 3) 1 [] (List.replicate 33 0) 5 Store.empty
      = ⟨Store.empty, [], some .TickerTooLong⟩ ∧
    (init (some 3) 1 [] [] 5 Store.empty).err = none ∧
    (init (some 3) 1 [] [] 5 Store.empty).store.tokens 1 = ⟨[], [], 5⟩ ∧
    (init (some 3) 1 [] [] 5 Store.empty).store.balance_of (1, 3) = 5 ∧
    (init (some 3) 1 [] [] 5 Store.empty).store.balance_of (1, 4)
      = Store.empty.balance_of (1, 4) ∧
    (init (some 3) 1 [] [] 5 Store.empty).store.allowance = Store.empty.allowance :=
  ⟨c6_init_check_order_and_effects.1 1 (List.replicate 65 0) [] 5 Store.empty,
   c6_init_check_order_and_effects.2.1 3 1 (List.replicate 65 0) [] 5 Store.empty (by decide),
   c6_init_check_order_and_effects.2.2.1 3 1 [] (List.replicate 33 0) 5 Store.empty
     (by decide) (by decide),
   (c6_init_check_order_and_effects.2.2.2 3 1 [] [] 5 Store.empty (by decide) (by decide)).1,
   (c6_init_check_order_and_effects.2.2.2 3 1 [] [] 5 Store.empty (by decide) (by decide)).2.1,
   (c6_init_check_order_and_effects.2.2.2 3 1 [] [] 5 Store.empty (by decide)
     (by decide)).2.2.1,
   (c6_init_check_order_and_effects.2.2.2 3 1 [] [] 5 Store.empty (by decide)
     (by decide)).2.2.2.2.1 (1, 4) (by decide),
   (c6_init_check_order_and_effects.2.2.2 3 1 [] [] 5 Store.empty (by decide)
     (by decide)).2.2.2.2.2⟩

/-- C7 (amended): `transfer` fails with `InsufficientBalance` and
changes nothing when `value` exceeds the caller balance; in the
boundary case `value` equals the caller balance it succeeds and leaves
the caller balance at zero, provided the recipient differs from the
caller and the recipient balance plus `value` does not exceed the
maximum of the balance type. -/
theorem c7_insufficient_and_boundary :
    (∀ (token_id from_ to_ value : Nat) (s : Store),
        s.balance_of (token_id, from_) < value →
          transfer (some from_) token_id to_ value s
            = ⟨s, [], some .InsufficientBalance⟩) ∧
    (∀ (token_id from_ to_ value : Nat) (s : Store),
        value = s.balance_of (token_id, from_) → from_ ≠ to_ →
          s.balance_of (token_id, to_) + value ≤ MAX →
          (transfer (some from_) token_id to_ value s).err = none ∧
          (transfer (some from_) token_id to_ value s).store.balance_of (token_id, from_)
            = 0) := by
  constructor
  · intro token_id from_ to_ value s h
    have hs : transfer (some from_) token_id to_ value s
        = _transfer token_id from_ to_ value s := rfl
    rw [hs, _transfer_insufficient token_id from_ to_ value s h]
  · intro token_id from_ to_ value s hval hne hover
    have hs : transfer (some from_) token_id to_ value s
        = _transfer token_id from_ to_ value s := rfl
    have h1 : value ≤ s.balance_of (token_id, from_) := by omega
    rw [hs, _transfer_success token_id from_ to_ value s h1 hover]
    refine ⟨rfl, ?_⟩
    have hk : (token_id, from_) ≠ (token_id, to_) := by
      intro hc
      exact hne (congrArg Prod.snd hc)
    simp only [mapInsert_ne _ _ _ _ hk, mapInsert_same]
    omega

/-- Witness for C7 at concrete inputs: in `demoStore` (account 1 holds
100 of token 7) a transfer of 101 to account 2 fails with
`InsufficientBalance` leaving the store untouched, and a transfer of
exactly 100 to account 2 succeeds and leaves account 1 at zero. -/
theorem c7_insufficient_and_boundary_witness :
    transfer (some 1) 7 2 101 demoStore = ⟨demoStore, [], some .InsufficientBalance⟩ ∧
    (transfer (some 1) 7 2 100 demoStore).err = none ∧
    (transfer (some 1) 7 2 100 demoStore).store.balance_of (7, 1) = 0 :=
  ⟨c7_insufficient_and_boundary.1 7 1 2 101 demoStore (by decide),
   (c7_insufficient_and_boundary.2 7 1 2 100 demoStore (by decide) (by decide) (by decide)).1,
   (c7_insufficient_and_boundary.2 7 1 2 100 demoStore (by decide) (by decide) (by decide)).2⟩

/-- C8: for distinct accounts `A ≠ B`, a successful transfer of
`value` from A to B (value within the A balance, no overflow of the B
balance) reduces the A balance by exactly `value`, increases the B
balance by exactly `value`, leaves the sum of the two balances
unchanged, and changes no other balance entry of any account under any
token. -/
theorem c8_transfer_moves_exactly_value (token_id A B value : Nat) (s : Store)
    (hAB : A ≠ B)
    (hbal : value ≤ s.balance_of (token_id, A))
    (hover : s.balance_of (token_id, B) + value ≤ MAX) :
    (transfer (some A) token_id B value s).err = none ∧
    (transfer (some A) token_id B value s).store.balance_of (token_id, A)
      = s.balance_of (token_id, A) - value ∧
    (transfer (some A) token_id B value s).store.balance_of (token_id, B)
      = s.balance_of (token_id, B) + value ∧
    (transfer (some A) token_id B value s).store.balance_of (token_id, A)
        + (transfer (some A) token_id B value s).store.balance_of (token_id, B)
      = s.balance_of (token_id, A) + s.balance_of (token_id, B) ∧
    (∀ k, k ≠ (token_id, A) → k ≠ (token_id, B) →
      (transfer (some A) token_id B value s).store.balance_of k = s.balance_of k) := by
  have hs : transfer (some A) token_id B value s = _transfer token_id A B value s := rfl
  rw [hs, _transfer_success token_id A B value s hbal hover]
  have hk : (token_id, A) ≠ (token_id, B) := by
    intro hc
    exact hAB (congrArg Prod.snd hc)
  refine ⟨rfl, ?_, ?_, ?_, ?_⟩
  · simp only [mapInsert_ne _ _ _ _ hk, mapInsert_same]
  · simp only [mapInsert_same]
  · simp only [mapInsert_ne _ _ _ _ hk, mapInsert_same]
    omega
  · intro k hkA hkB
    simp only [mapInsert_ne _ _ _ _ hkB, mapInsert_ne _ _ _ _ hkA]

/-- Witness for C8: in `demoStore` account 1 transfers 30 of token 7 to
account 2: the call succeeds, account 1 drops to 70, account 2 rises to
30, the two balances still sum to 100, and the balance at the untouched
key (7, 3) is unchanged. -/
theorem c8_transfer_moves_exactly_value_witness :
    (transfer (some 1) 7 2 30 demoStore).err = none ∧
    (transfer (some 1) 7 2 30 demoStore).store.balance_of (7, 1)
      = demoStore.balance_of (7, 1) - 30 ∧
    (transfer (some 1) 7 2 30 demoStore).store.balance_of (7, 2)
      = demoStore.balance_of (7, 2) + 30 ∧
    (transfer (some 1) 7 2 30 demoStore).store.balance_of (7, 1)
        + (transfer (some 1) 7 2 30 demoStore).store.balance_of (7, 2)
      = demoStore.balance_of (7, 1) + demoStore.balance_of (7, 2) ∧
    (transfer (some 1) 7 2 30 demoStore).store.balance_of (7, 3)
      = demoStore.balance_of (7, 3) :=
  ⟨(c8_transfer_moves_exactly_value 7 1 2 30 demoStore (by decide) (by decide) (by decide)).1,
   (c8_transfer_moves_exactly_value 7 1 2 30 demoStore (by decide) (by decide) (by decide)).2.1,
   (c8_transfer_moves_exactly_value 7 1 2 30 demoStore (by decide) (by decide)
     (by decide)).2.2.1,
   (c8_transfer_moves_exactly_value 7 1 2 30 demoStore (by decide) (by decide)
     (by decide)).2.2.2.1,
   (c8_transfer_moves_exactly_value 7 1 2 30 demoStore (by decide) (by decide)
     (by decide)).2.2.2.2 (7, 3) (by decide) (by decide)⟩

/-- C9: `approve` is additive.  Starting from a zero allowance for
(token id, owner, spender), approving `v1` and then `v2` (with
`v1 + v2` within the balance type) yields the allowance `v1 + v2`, not
`v2`; and whenever the stored allowance plus the approved value would
exceed the maximum of the balance type, `approve` fails with
`ArithmeticOverflow` and leaves the whole store — in particular the
allowance — unchanged. -/
theorem c9_approve_additive (token_id owner spender v1 v2 : Nat) (s : Store)
    (h0 : s.allowance (token_id, owner, spender) = 0)
    (h12 : v1 + v2 ≤ MAX) :
    (approve (some owner) token_id spender v1 s).err = none ∧
    (approve (some owner) token_id spender v2
        (approve (some owner) token_id spender v1 s).store).err = none ∧
    (approve (some owner) token_id spender v2
        (approve (some owner) token_id spender v1 s).store).store.allowance
        (token_id, owner, spender) = v1 + v2 ∧
    (∀ (v : Nat) (t : Store),
        MAX < t.allowance (token_id, owner, spender) + v →
          approve (some owner) token_id spender v t
            = ⟨t, [], some .ArithmeticOverflow⟩) := by
  have h1 : s.allowance (token_id, owner, spender) + v1 ≤ MAX := by omega
  have e1 := approve_success token_id owner spender v1 s h1
  have hall1 : (approve (some owner) token_id spender v1 s).store.allowance
      (token_id, owner, spender) = v1 := by
    rw [e1]
    simp only [mapInsert_same]
    omega
  have h2 : (approve (some owner) token_id spender v1 s).store.allowance
      (token_id, owner, spender) + v2 ≤ MAX := by
    rw [hall1]; omega
  have e2 := approve_success token_id owner spender v2
    (approve (some owner) token_id spender v1 s).store h2
  refine ⟨by rw [e1], by rw [e2], ?_, ?_⟩
  · rw [e2]
    simp only [mapInsert_same]
    rw [hall1]
  · intro v t ht
    exact approve_overflow token_id owner spender v t ht

/-- Witness for C9: on the empty store, owner 1 approves 3 and then 4
to spender 2 on token 7, ending with allowance 7; approving one more
than `MAX` on the empty store fails with `ArithmeticOverflow` and
returns the store unchanged. -/
theorem c9_approve_additive_witness :
    (approve (some 1) 7 2 3 Store.empty).err = none ∧
    (approve (some 1) 7 2 4 (approve (some 1) 7 2 3 Store.empty).store).err = none ∧
    (approve (some 1) 7 2 4
        (approve (some 1) 7 2 3 Store.empty).store).store.allowance (7, 1, 2) = 3 + 4 ∧
    approve (some 1) 7 2 (MAX + 1) Store.empty
      = ⟨Store.empty, [], some .ArithmeticOverflow⟩ :=
  ⟨(c9_approve_additive 7 1 2 3 4 Store.empty rfl (by decide)).1,
   (c9_approve_additive 7 1 2 3 4 Store.empty rfl (by decide)).2.1,
   (c9_approve_additive 7 1 2 3 4 Store.empty rfl (by decide)).2.2.1,
   (c9_approve_additive 7 1 2 3 4 Store.empty rfl (by decide)).2.2.2 (MAX + 1)
     Store.empty (by decide)⟩

/-- C10: a successful `approve` writes only the allowance entry for
(token id, caller, spender): it sets that entry to its old value plus
`value`, leaves every other allowance entry untouched, and leaves the
whole balance table and the whole token-record table exactly as before
the call. -/
theorem c10_approve_frame (token_id caller spender value : Nat) (s : Store)
    (h : s.allowance (token_id, caller, spender) + value ≤ MAX) :
    (approve (some caller) token_id spender value s).err = none ∧
    (approve (some caller) token_id spender value s).store.allowance
        (token_id, caller, spender)
      = s.allowance (token_id, caller, spender) + value ∧
    (∀ k, k ≠ (token_id, caller, spender) →
      (approve (some caller) token_id spender value s).store.allowance k
        = s.allowance k) ∧
    (approve (some caller) token_id spender value s).store.balance_of = s.balance_of ∧
    (approve (some caller) token_id spender value s).store.tokens = s.tokens := by
  rw [approve_success token_id caller spender value s h]
  exact ⟨rfl, mapInsert_same _ _ _, fun k hk => mapInsert_ne _ _ _ _ hk, rfl, rfl⟩

/-- Witness for C10: account 1 approves 9 more to spender 2 on token 7
in `demoApproved` (allowance 60): the call succeeds, the allowance at
(7, 1, 2) becomes 69, the allowance at (7, 1, 3) is untouched, and the
balance and token tables are equal to those before the call. -/
theorem c10_approve_frame_witness :
    (approve (some 1) 7 2 9 demoApproved).err = none ∧
    (approve (some 1) 7 2 9 demoApproved).store.allowance (7, 1, 2)
      = demoApproved.allowance (7, 1, 2) + 9 ∧
    (approve (some 1) 7 2 9 demoApproved).store.allowance (7, 1, 3)
      = demoApproved.allowance (7, 1, 3) ∧
    (approve (some 1) 7 2 9 demoApproved).store.balance_of = demoApproved.balance_of ∧
    (approve (some 1) 7 2 9 demoApproved).store.tokens = demoApproved.tokens :=
  ⟨(c10_approve_frame 7 1 2 9 demoApproved (by decide)).1,
   (c10_approve_frame 7 1 2 9 demoApproved (by decide)).2.1,
   (c10_approve_frame 7 1 2 9 demoApproved (by decide)).2.2.1 (7, 1, 3) (by decide),
   (c10_approve_frame 7 1 2 9 demoApproved (by decide)).2.2.2.1,
   (c10_approve_frame 7 1 2 9 demoApproved (by decide)).2.2.2.2⟩
